import Mathlib

/-!
Verification of the alpha-mail email review application.

The embedding below follows the TypeScript source:
* `emailsGET` embeds the `GET /emails` route handler: it filters the stored
  Firestore documents on `user_id == "default"`, `is_read == false` and
  `discard == false`, orders them by `received_date` descending, takes at
  most 20, and maps each document to the frontend `EmailSummary` shape.
* `emailActionPOST` embeds the `POST /email-action` route handler, which
  parses the request body and returns a success response without touching
  storage (the handler logs "Action is currently disabled").
* `visibleItem`, `optimisticRemove` and `handleAction` embed the client-side
  review stack in `EmailCardStack.tsx`.
-/

/-- A stored Firestore document in the `emails` collection, with the fields
the route handler reads.  A missing or non-Timestamp `received_date` is
modelled as `none`; a missing string field is modelled as `""` and a missing
boolean as `false`, matching how the JavaScript truthiness tests treat them. -/
structure StoredEmail where
  gmail_id : String
  user_id : String
  subject : String
  sender : String
  summary : String
  snippet : String
  body : String
  received_date : Option Int
  is_read : Bool
  discard : Bool
  is_important : Bool
deriving Repr, DecidableEq

/-- The spec's disposition enumeration for a message record. -/
inductive Disposition where
  | unread
  | kept
  | discarded
  | flagged
deriving Repr, DecidableEq

/-- The disposition encoded by a stored document's boolean fields: the
storage schema carries `is_read` and `discard` booleans rather than an enum,
and a record is unread exactly when both are `false` (the conjunction the
`GET /emails` query filters on).  `flagged` has no storage representation. -/
def StoredEmail.disposition (r : StoredEmail) : Disposition :=
  if r.discard then .discarded
  else if r.is_read then .kept
  else .unread

/-- The Firestore filter used by `GET /emails`:
`user_id == userId && is_read == false && discard == false`. -/
def matchesQuery (userId : String) (r : StoredEmail) : Bool :=
  r.user_id == userId && r.is_read == false && r.discard == false

/-- The `orderBy received_date desc` comparison: `a` may come no later than
`b` when `a`'s timestamp is at least `b`'s; a document without a valid
timestamp sorts after every dated one. -/
def descBefore (a b : StoredEmail) : Bool :=
  match a.received_date, b.received_date with
  | some x, some y => y ≤ x
  | some _, none => true
  | none, some _ => false
  | none, none => true

/-- `descBefore` as a relation, for `List.insertionSort`. -/
def descRel (a b : StoredEmail) : Prop := descBefore a b = true

instance : DecidableRel descRel :=
  fun a b => inferInstanceAs (Decidable (descBefore a b = true))

instance : IsTotal StoredEmail descRel := by
  constructor
  intro a b
  unfold descRel descBefore
  cases a.received_date <;> cases b.received_date <;> simp <;> omega

instance : IsTrans StoredEmail descRel := by
  constructor
  intro a b c hab hbc
  unfold descRel descBefore at *
  rcases ha : a.received_date with _ | x <;> rcases hb : b.received_date with _ | y <;>
    rcases hc : c.received_date with _ | z <;>
      simp only [ha, hb, hc] at hab hbc ⊢ <;> simp_all <;> omega

/-- The record set served by `GET /emails` before projection: filter by the
query predicate, order by `received_date` descending, limit to 20. -/
def queryRecords (store : List StoredEmail) : List StoredEmail :=
  ((store.filter (matchesQuery "default")).insertionSort descRel).take 20

/-- The frontend `EmailSummary` shape (`src/lib/types.ts`), with the ISO date
string modelled by the underlying timestamp. -/
structure EmailSummary where
  id : String
  subject : String
  sender : String
  summary : String
  receivedDate : Int
  actionRequired : Bool
  fullContent : String
  actionDescription : Option String
  status : String
deriving Repr, DecidableEq

/-- The projection of one stored document to an `EmailSummary`, following the
`docs.map` body of the route handler: `summary` is `data.summary ||
data.snippet` (JavaScript falsiness: the empty string falls through to the
snippet), `receivedDate` falls back to the time the query is served when
`received_date` is missing or not a Timestamp, and `actionRequired` is
`data.is_important || false`. -/
def mapRecord (queryTime : Int) (r : StoredEmail) : EmailSummary :=
  { id := r.gmail_id
    subject := r.subject
    sender := r.sender
    summary := if r.summary = "" then r.snippet else r.summary
    receivedDate := match r.received_date with
      | some t => t
      | none => queryTime
    actionRequired := r.is_important
    fullContent := r.body
    actionDescription :=
      if r.is_important then some "This email is marked as important." else none
    status := "none" }

/-- The full `GET /emails` response body: the selected records, projected. -/
def emailsGET (queryTime : Int) (store : List StoredEmail) : List EmailSummary :=
  (queryRecords store).map (mapRecord queryTime)

/-- The `POST /email-action` response: HTTP status, `success` flag, `message`. -/
structure ActionResponse where
  status : Nat
  success : Bool
  message : String
deriving Repr, DecidableEq

/-- The `POST /email-action` route handler.  The request body is `some
(emailId, action)` when it parses as JSON and `none` when parsing throws.
The handler logs the action and returns `{success: true, message: "Action
disabled."}` without performing any storage write; a parse failure is caught
and answered with HTTP 500 and `success: false`.  The stored data is
returned unchanged in both branches. -/
def emailActionPOST (store : List StoredEmail) (requestBody : Option (String × String)) :
    List StoredEmail × ActionResponse :=
  match requestBody with
  | some _ => (store, { status := 200, success := true, message := "Action disabled." })
  | none => (store, { status := 500, success := false, message := "Internal Server Error" })

/-- The disposition of the stored record identified by a gmail id, if any. -/
def lookupDisposition (store : List StoredEmail) (gid : String) : Option Disposition :=
  (store.find? (fun r => r.gmail_id == gid)).map StoredEmail.disposition

/-- The item rendered by `EmailCardStack`: `emails[emails.length - 1]` when
the list is non-empty, nothing otherwise. -/
def visibleItem (emails : List EmailSummary) : Option EmailSummary :=
  if h : emails.length > 0 then
    some (emails.get ⟨emails.length - 1, by omega⟩)
  else none

/-- The synchronous optimistic update in `handleAction`:
`setEmails((prev) => prev.filter((email) => email.id !== emailId))`. -/
def optimisticRemove (emails : List EmailSummary) (emailId : String) : List EmailSummary :=
  emails.filter (fun e => e.id ≠ emailId)

/-- The eventual outcome of the `fetch("/api/email-action", ...)` round trip. -/
inductive ServerOutcome where
  | ok
  | failed
  | networkError
deriving Repr, DecidableEq

/-- The client email list after `handleAction` runs to completion: the
optimistic removal happens first, and both failure branches only log to the
console (the revert is a TODO comment), so the final list is the filtered
list whatever the server outcome. -/
def handleAction (emails : List EmailSummary) (emailId : String)
    (outcome : ServerOutcome) : List EmailSummary :=
  let removed := optimisticRemove emails emailId
  match outcome with
  | .ok => removed
  | .failed => removed
  | .networkError => removed

/-- A concrete stored document used in concrete-input theorems: an unread
record of the default user with a valid timestamp. -/
def sampleRecord : StoredEmail :=
  { gmail_id := "m1", user_id := "default", subject := "hello", sender := "a@b.c"
    summary := "sum", snippet := "snip", body := "full body"
    received_date := some 100, is_read := false, discard := false, is_important := false }

/-- A concrete stored document of the default user that has been read. -/
def readRecord : StoredEmail :=
  { gmail_id := "m2", user_id := "default", subject := "old", sender := "a@b.c"
    summary := "sum2", snippet := "snip2", body := "body2"
    received_date := some 200, is_read := true, discard := false, is_important := false }

/-- A concrete unread stored document whose summary and snippet are both empty. -/
def blankRecord : StoredEmail :=
  { gmail_id := "b1", user_id := "default", subject := "s", sender := "x"
    summary := "", snippet := "", body := "body text"
    received_date := some 5, is_read := false, discard := false, is_important := false }

/-- A concrete unread stored document without a valid received_date. -/
def undatedRecord : StoredEmail :=
  { gmail_id := "d1", user_id := "default", subject := "nodate", sender := "y"
    summary := "su", snippet := "sn", body := "bt"
    received_date := none, is_read := false, discard := false, is_important := false }

/-- Twenty-five distinct unread stored documents of the default user. -/
def manyRecords : List StoredEmail :=
  (List.range 25).map (fun i =>
    { sampleRecord with gmail_id := toString i, received_date := some (i : Int) })

/-- A concrete client-side email used in concrete-input theorems. -/
def sampleEmail : EmailSummary :=
  { id := "m1", subject := "hello", sender := "a@b.c", summary := "sum"
    receivedDate := 100, actionRequired := false, fullContent := "full body"
    actionDescription := none, status := "none" }

lemma disposition_unread_of_matches {r : StoredEmail}
    (h : matchesQuery "default" r = true) : r.disposition = .unread := by
  have h2 : r.is_read = false := by
    simp [matchesQuery] at h; tauto
  have h3 : r.discard = false := by
    simp [matchesQuery] at h; tauto
  simp [StoredEmail.disposition, h2, h3]

lemma mem_queryRecords {r : StoredEmail} {store : List StoredEmail}
    (h : r ∈ queryRecords store) : r ∈ store ∧ matchesQuery "default" r = true := by
  unfold queryRecords at h
  have h2 := List.take_subset _ _ h
  rw [List.mem_insertionSort] at h2
  exact List.mem_filter.mp h2

lemma emailsGET_length (queryTime : Int) (store : List StoredEmail) :
    (emailsGET queryTime store).length =
      min 20 (store.filter (matchesQuery "default")).length := by
  unfold emailsGET queryRecords
  rw [List.length_map, List.length_take, List.length_insertionSort]

/-- Claim C1: a stored record of the default owner whose disposition is not
unread is absent from the GET /emails record set, and every email in a GET
/emails response is the projection of a stored record whose disposition is
unread. -/
theorem c1_unread_visibility (store : List StoredEmail) (queryTime : Int)
    (r : StoredEmail) (hr : r ∈ store) (hown : r.user_id = "default")
    (hd : r.disposition ≠ .unread) :
    r ∉ queryRecords store ∧
    ∀ e ∈ emailsGET queryTime store, ∃ s, s ∈ store ∧ s.disposition = .unread ∧
      e = mapRecord queryTime s := by
  constructor
  · intro hmem
    exact hd (disposition_unread_of_matches (mem_queryRecords hmem).2)
  · intro e he
    unfold emailsGET at he
    obtain ⟨s, hs, rfl⟩ := List.mem_map.mp he
    obtain ⟨hs1, hs2⟩ := mem_queryRecords hs
    exact ⟨s, hs1, disposition_unread_of_matches hs2, rfl⟩

/-- Witness for C1 at a concrete two-record store. -/
theorem c1_witness :
    readRecord ∉ queryRecords [sampleRecord, readRecord] ∧
    ∀ e ∈ emailsGET 0 [sampleRecord, readRecord], ∃ s, s ∈ [sampleRecord, readRecord] ∧
      s.disposition = .unread ∧ e = mapRecord 0 s :=
  c1_unread_visibility [sampleRecord, readRecord] 0 readRecord
    (by simp) (by rfl) (by decide)

/-- Counterexample to C2: the POST /email-action call for record m1 with
action discard reports success, yet the stored disposition of m1 is still
unread, not the requested discarded. -/
theorem c2_counterexample :
    (emailActionPOST [sampleRecord] (some ("m1", "discard"))).2.success = true ∧
    lookupDisposition (emailActionPOST [sampleRecord] (some ("m1", "discard"))).1 "m1" =
      some .unread ∧
    lookupDisposition (emailActionPOST [sampleRecord] (some ("m1", "discard"))).1 "m1" ≠
      some .discarded := by
  refine ⟨rfl, by decide, by decide⟩

/-- Claim C2 (amended): given a parsed request carrying a provider id and an
action, the disposition handler reports success but performs no storage
update: the store, hence every stored disposition, is left unchanged. -/
theorem c2_amended_noop_success (store : List StoredEmail) (emailId action : String) :
    (emailActionPOST store (some (emailId, action))).1 = store ∧
    (emailActionPOST store (some (emailId, action))).2.success = true ∧
    ∀ gid, lookupDisposition (emailActionPOST store (some (emailId, action))).1 gid =
      lookupDisposition store gid :=
  ⟨rfl, rfl, fun _ => rfl⟩

/-- Claim C3: the GET /emails response holds at most 20 emails, the selected
record list is sorted by received_date descending, and when exactly 25
records of the owner are unread the response holds exactly 20. -/
theorem c3_page_size_and_order (store : List StoredEmail) (queryTime : Int) :
    (emailsGET queryTime store).length ≤ 20 ∧
    List.Sorted descRel (queryRecords store) ∧
    ((store.filter (matchesQuery "default")).length = 25 →
      (emailsGET queryTime store).length = 20) := by
  refine ⟨?_, ?_, ?_⟩
  · rw [emailsGET_length]
    exact min_le_left _ _
  · unfold queryRecords
    exact List.Pairwise.sublist (List.take_sublist _ _)
      (List.sorted_insertionSort descRel _)
  · intro h25
    rw [emailsGET_length, h25]
    rfl

/-- Witness for C3 at a concrete store of 25 unread records. -/
theorem c3_witness :
    (emailsGET 0 manyRecords).length = 20 :=
  (c3_page_size_and_order manyRecords 0).2.2 (by rfl)

/-- Claim C4: on a keep, discard or flag action the item is removed from the
client list by the synchronous optimistic update, and the resulting list is
the same whatever the server outcome turns out to be. -/
theorem c4_optimistic_removal (emails : List EmailSummary) (emailId : String)
    (outcome : ServerOutcome) :
    handleAction emails emailId outcome = optimisticRemove emails emailId ∧
    ∀ e ∈ handleAction emails emailId outcome, e.id ≠ emailId := by
  constructor
  · cases outcome <;> rfl
  · intro e he
    cases outcome <;>
      simpa using (List.mem_filter.mp he).2

/-- Witness for C4 at a concrete one-element list and failed outcome. -/
theorem c4_witness :
    handleAction [sampleEmail] "m1" .failed = optimisticRemove [sampleEmail] "m1" ∧
    ∀ e ∈ handleAction [sampleEmail] "m1" .failed, e.id ≠ "m1" :=
  c4_optimistic_removal [sampleEmail] "m1" .failed

/-- Claim C5, the code behavior at the failing input: after a discard action
on the only visible item whose server call fails, the item does not
reappear — the client list is empty and no item is visible, because both
failure branches only log and never re-insert. -/
theorem c5_no_revert_on_failure :
    handleAction [sampleEmail] sampleEmail.id .failed = [] ∧
    visibleItem (handleAction [sampleEmail] sampleEmail.id .failed) = none ∧
    handleAction [sampleEmail] sampleEmail.id .networkError = [] := by
  refine ⟨by decide, by decide, by decide⟩

/-- Claim C6: submitting the same action twice for the same provider id is
idempotent — the store after the second call equals the store after the
first call, every stored disposition is unchanged between them, and both
calls report success. -/
theorem c6_action_idempotent (store : List StoredEmail) (emailId action : String) :
    (emailActionPOST (emailActionPOST store (some (emailId, action))).1
        (some (emailId, action))).1 =
      (emailActionPOST store (some (emailId, action))).1 ∧
    (∀ gid, lookupDisposition
        (emailActionPOST (emailActionPOST store (some (emailId, action))).1
          (some (emailId, action))).1 gid =
      lookupDisposition (emailActionPOST store (some (emailId, action))).1 gid) ∧
    (emailActionPOST store (some (emailId, action))).2.success = true ∧
    (emailActionPOST (emailActionPOST store (some (emailId, action))).1
        (some (emailId, action))).2.success = true :=
  ⟨rfl, fun _ => rfl, rfl, rfl⟩

/-- Counterexample to C7: with a stored unread record whose summary and
snippet are both empty, the GET /emails response contains an email whose
summary is empty — not every response email has a non-empty summary. -/
theorem c7_counterexample :
    ¬ (∀ e ∈ emailsGET 0 [blankRecord], e.summary ≠ "") := by
  decide

/-- Claim C7 (amended): every email in a GET /emails response takes its
summary from the stored record: the stored summary when that is non-empty,
otherwise the stored snippet; the result is non-empty provided the record's
summary and snippet are not both empty. -/
theorem c7_summary_fallback (store : List StoredEmail) (queryTime : Int)
    (e : EmailSummary) (he : e ∈ emailsGET queryTime store) :
    ∃ r, r ∈ store ∧
      e.summary = (if r.summary = "" then r.snippet else r.summary) ∧
      (¬(r.summary = "" ∧ r.snippet = "") → e.summary ≠ "") := by
  unfold emailsGET at he
  obtain ⟨r, hr, rfl⟩ := List.mem_map.mp he
  obtain ⟨h1, _⟩ := mem_queryRecords hr
  refine ⟨r, h1, rfl, ?_⟩
  intro hne
  by_cases hs : r.summary = ""
  · simp [mapRecord, hs]
    intro hsnip
    exact hne ⟨hs, hsnip⟩
  · simpa [mapRecord, hs] using hs

/-- Witness for C7 at a concrete one-record store. -/
theorem c7_witness :
    ∃ r, r ∈ [sampleRecord] ∧
      (mapRecord 0 sampleRecord).summary = (if r.summary = "" then r.snippet else r.summary) ∧
      (¬(r.summary = "" ∧ r.snippet = "") → (mapRecord 0 sampleRecord).summary ≠ "") :=
  c7_summary_fallback [sampleRecord] 0 (mapRecord 0 sampleRecord) (by decide)

/-- Claim C8: the GET /emails response always contains the full page — its
length is the number of matching records capped at 20, whatever the
received_date fields hold, so a malformed record never fails the response —
and every selected record without a valid received_date is served with the
query time as its receivedDate. -/
theorem c8_malformed_date_tolerated (store : List StoredEmail) (queryTime : Int) :
    (emailsGET queryTime store).length =
      min 20 (store.filter (matchesQuery "default")).length ∧
    ∀ r ∈ queryRecords store, r.received_date = none →
      (mapRecord queryTime r).receivedDate = queryTime := by
  constructor
  · exact emailsGET_length queryTime store
  · intro r _ hnone
    simp [mapRecord, hnone]

/-- Witness for C8 at a concrete store holding a record without a date. -/
theorem c8_witness :
    (emailsGET 7 [undatedRecord, sampleRecord]).length =
      min 20 ([undatedRecord, sampleRecord].filter (matchesQuery "default")).length ∧
    ∀ r ∈ queryRecords [undatedRecord, sampleRecord], r.received_date = none →
      (mapRecord 7 r).receivedDate = 7 :=
  c8_malformed_date_tolerated [undatedRecord, sampleRecord] 7

/-- Claim C9: the visible item of the review stack is exactly the last
element of the email list — some last element when the list is non-empty,
and none when the list is empty. -/
theorem c9_stack_discipline (emails : List EmailSummary) :
    visibleItem emails = emails.getLast? ∧
    (emails = [] → visibleItem emails = none) ∧
    (emails ≠ [] → ∃ e, visibleItem emails = some e ∧ emails.getLast? = some e) := by
  have h1 : visibleItem emails = emails.getLast? := by
    unfold visibleItem
    split
    · rename_i h
      have hne : emails ≠ [] := by
        intro hn
        rw [hn] at h
        simp at h
      rw [List.getLast?_eq_getLast_of_ne_nil hne]
      congr 1
      rw [List.getLast_eq_getElem]
      simp
    · rename_i h
      have : emails = [] := by
        cases emails with
        | nil => rfl
        | cons a l => simp at h
      simp [this]
  refine ⟨h1, fun he => by rw [h1, he]; rfl, fun hne => ?_⟩
  rw [h1, List.getLast?_eq_getLast_of_ne_nil hne]
  exact ⟨_, rfl, rfl⟩

/-- Witness for C9 at a concrete one-element list. -/
theorem c9_witness :
    visibleItem [sampleEmail] = [sampleEmail].getLast? ∧
    ([sampleEmail] = [] → visibleItem [sampleEmail] = none) ∧
    ([sampleEmail] ≠ [] → ∃ e, visibleItem [sampleEmail] = some e ∧
      [sampleEmail].getLast? = some e) :=
  c9_stack_discipline [sampleEmail]

/-- Claim C10: every parseable POST /email-action request is answered with
HTTP 200, success true and message "Action disabled.", whatever strings the
emailId and action are; an unparseable body is answered with HTTP 500 and
success false; the stored data is unchanged in both cases. -/
theorem c10_action_disabled_stub (store : List StoredEmail) (emailId action : String) :
    emailActionPOST store (some (emailId, action)) =
      (store, { status := 200, success := true, message := "Action disabled." }) ∧
    emailActionPOST store none =
      (store, { status := 500, success := false, message := "Internal Server Error" }) :=
  ⟨rfl, rfl⟩
